import Mathlib

/-!
Verification of the personal-finance-analyst repository.

The repository under verification is a Next.js frontend (`web/src/lib/api.ts`,
`web/app/chat/page.tsx`, `web/app/upload` and `web/app/` pages) for a
deterministic finance query engine.  The backend engine itself (a FastAPI
application) is not part of the given sources, so its behaviour is modelled
from the specification where a claim depends on it; every such definition is
marked with a doc comment starting with the words "Modelled from the spec".

All frontend definitions below are shallow embeddings of the TypeScript in
`web/src/lib/api.ts` and the chat/upload pages: JavaScript strings become
`String`, numbers coming out of `parseInt` become `Int`, `fetch` becomes a
function from requests to responses supplied as an argument together with an
explicit log of the requests issued, and thrown errors become `Except`.
-/

/- ===================== JavaScript primitive models ===================== -/

/-- Whitespace recognised by `String.prototype.trim`, `parseInt` and
`parseFloat` (the ASCII core of the WhiteSpace/LineTerminator productions). -/
def isJsWs (c : Char) : Bool :=
  c = ' ' || c = '\t' || c = '\n' || c = '\r' || c.toNat = 11 || c.toNat = 12 || c.toNat = 160

/-- Drop leading JavaScript whitespace from a character list. -/
def dropWsL : List Char → List Char
  | [] => []
  | c :: cs => if isJsWs c then dropWsL cs else c :: cs

/-- Model of `String.prototype.trim`: strip whitespace from both ends. -/
def jsTrim (s : String) : String :=
  String.mk (List.reverse (dropWsL (List.reverse (dropWsL s.toList))))

/-- JavaScript truthiness of a string: every string except `""` is truthy. -/
def truthyStr (s : String) : Bool :=
  match s.toList with
  | [] => false
  | _ :: _ => true

/-- JavaScript truthiness of a nullable string (`null`/`undefined` are falsy). -/
def truthyOptStr : Option String → Bool
  | none => false
  | some s => truthyStr s

/-- Value of a decimal digit character, if it is one. -/
def decDigit? (c : Char) : Option Nat :=
  if 48 ≤ c.toNat ∧ c.toNat ≤ 57 then some (c.toNat - 48) else none

/-- Value of a hexadecimal digit character, if it is one. -/
def hexDigit? (c : Char) : Option Nat :=
  if 48 ≤ c.toNat ∧ c.toNat ≤ 57 then some (c.toNat - 48)
  else if 97 ≤ c.toNat ∧ c.toNat ≤ 102 then some (c.toNat - 87)
  else if 65 ≤ c.toNat ∧ c.toNat ≤ 70 then some (c.toNat - 55)
  else none

/-- Accumulate a run of digits in the given base, starting from `acc`;
also returns how many digits were consumed and the rest of the input. -/
def readDigits (digit : Char → Option Nat) (base : Nat) :
    Nat → Nat → List Char → Nat × Nat × List Char
  | acc, cnt, [] => (acc, cnt, [])
  | acc, cnt, c :: cs =>
    match digit c with
    | some d => readDigits digit base (acc * base + d) (cnt + 1) cs
    | none => (acc, cnt, c :: cs)

/-- Model of JavaScript `parseInt(s)` with no radix argument: skip leading
whitespace, read an optional sign, then either a `0x`/`0X` hexadecimal literal
or a run of decimal digits; `none` models `NaN` (no digits at all). -/
def parseIntJS (s : String) : Option Int :=
  let l := dropWsL s.toList
  let sl : Int × List Char :=
    match l with
    | '-' :: rest => (-1, rest)
    | '+' :: rest => (1, rest)
    | _ => (1, l)
  match sl.2 with
  | '0' :: x :: rest =>
    if x = 'x' || x = 'X' then
      match readDigits hexDigit? 16 0 0 rest with
      | (_, 0, _) => none
      | (v, _ + 1, _) => some (sl.1 * (v : Int))
    else
      some (sl.1 * ((readDigits decDigit? 10 0 0 (x :: rest)).1 : Int))
  | other =>
    match readDigits decDigit? 10 0 0 other with
    | (_, 0, _) => none
    | (v, _ + 1, _) => some (sl.1 * (v : Int))

/-- A JavaScript number produced by `parseFloat`, before rounding to binary64:
either a finite decimal `mant * 10 ^ exp10` or an infinity. -/
inductive JsDec where
  | finite (mant : Int) (exp10 : Int)
  | infinite (neg : Bool)

/-- Does the second list start with the first one? -/
def beginsWith : List Char → List Char → Bool
  | [], _ => true
  | _ :: _, [] => false
  | p :: ps, c :: cs => p = c && beginsWith ps cs

/-- Model of JavaScript `parseFloat(s)`: skip leading whitespace, read an
optional sign, then either `Infinity` or a decimal literal
(`digits [. digits] [e|E [sign] digits]`, longest valid prefix, at least one
mantissa digit); `none` models `NaN`.  The model covers the decimal-literal
core of the StrDecimalLiteral grammar. -/
def parseFloatJS (s : String) : Option JsDec :=
  let l := dropWsL s.toList
  let sl : Bool × List Char :=
    match l with
    | '-' :: rest => (true, rest)
    | '+' :: rest => (false, rest)
    | _ => (false, l)
  let neg := sl.1
  if beginsWith "Infinity".toList sl.2 then some (JsDec.infinite neg)
  else
    let ipart := readDigits decDigit? 10 0 0 sl.2
    let fpart : Nat × Nat × List Char :=
      match ipart.2.2 with
      | '.' :: rest => readDigits decDigit? 10 ipart.1 0 rest
      | _ => (ipart.1, 0, ipart.2.2)
    if ipart.2.1 + fpart.2.1 = 0 then none
    else
      let mant : Int := if neg then -(fpart.1 : Int) else (fpart.1 : Int)
      let fracExp : Int := -(fpart.2.1 : Int)
      match fpart.2.2 with
      | 'e' :: rest => some (JsDec.finite mant (fracExp + parseExpPart rest))
      | 'E' :: rest => some (JsDec.finite mant (fracExp + parseExpPart rest))
      | _ => some (JsDec.finite mant fracExp)
where
  /-- Value of an exponent part after the `e`/`E` marker; `0` when the
  exponent is malformed (in which case `parseFloat` stops before the `e`). -/
  parseExpPart (l : List Char) : Int :=
    let sl : Int × List Char :=
      match l with
      | '-' :: rest => (-1, rest)
      | '+' :: rest => (1, rest)
      | _ => (1, l)
    match readDigits decDigit? 10 0 0 sl.2 with
    | (_, 0, _) => 0
    | (v, _ + 1, _) => sl.1 * (v : Int)

/- ===================== Binary64 rounding model ===================== -/

/-- Number of binary digits of `n` (fuel-driven so that it reduces in the
kernel); call it as `bitLen n n`. -/
def bitLen : Nat → Nat → Nat
  | 0, _ => 0
  | _ + 1, 0 => 0
  | f + 1, n => bitLen f (n / 2) + 1

/-- Is `2 ^ e ≤ a / b` (for positive naturals `a`, `b`)? -/
def pow2LeQ (e : Int) (a b : Nat) : Bool :=
  if 0 ≤ e then b * 2 ^ e.toNat ≤ a else b ≤ a * 2 ^ (-e).toNat

/-- Largest `e` with `2 ^ e ≤ a / b`, for positive `a`, `b`: a first guess
from the bit lengths, corrected by direct comparison (the guess is at most
two off). -/
def floorLog2Q (a b : Nat) : Int :=
  let e0 : Int := (bitLen a a : Int) - (bitLen b b : Int)
  if pow2LeQ (e0 + 2) a b then e0 + 2
  else if pow2LeQ (e0 + 1) a b then e0 + 1
  else if pow2LeQ e0 a b then e0
  else if pow2LeQ (e0 - 1) a b then e0 - 1
  else e0 - 2

/-- Round `a / b` (positive naturals) to the nearest integer, ties to even. -/
def roundHalfEven (a b : Nat) : Nat :=
  let q := a / b
  let r := a % b
  if 2 * r < b then q
  else if b < 2 * r then q + 1
  else if q % 2 = 0 then q else q + 1

/-- A binary64 value as the frontend sees it: zero, a finite value
`(-1)^neg * m * 2 ^ g`, or an infinity.  `NaN` is represented at the use
sites by `Option`. -/
inductive DoubleVal where
  | zero
  | finite (neg : Bool) (m : Nat) (g : Int)
  | inf (neg : Bool)

/-- Does `m * 2 ^ g` reach the binary64 overflow threshold `2 ^ 1024`?
Stated with a small exponent so that it reduces in the kernel (the rounded
mantissa `m` is always below `2 ^ 60`). -/
def dvOverflow (m : Nat) (g : Int) : Bool :=
  let t : Int := 1024 - g
  if t < 0 then true else if t ≤ 60 then 2 ^ t.toNat ≤ m else false

/-- Nearest binary64 (round to nearest, ties to even) of the positive
rational `a / b`.  Normal and subnormal ranges are handled; overflow rounds
to infinity. -/
def nearestDoublePos (a b : Nat) : DoubleVal :=
  let e := floorLog2Q a b
  let g : Int := max (e - 52) (-1074)
  let scaled : Nat × Nat :=
    if 0 ≤ g then (a, b * 2 ^ g.toNat) else (a * 2 ^ (-g).toNat, b)
  let m := roundHalfEven scaled.1 scaled.2
  if m = 0 then DoubleVal.zero
  else if dvOverflow m g then DoubleVal.inf false
  else DoubleVal.finite false m g

/-- Nearest binary64 of the decimal `mant * 10 ^ exp10`. -/
def doubleOfDec (mant exp10 : Int) : DoubleVal :=
  if mant = 0 then DoubleVal.zero
  else
    let a : Nat := if 0 ≤ exp10 then mant.natAbs * 10 ^ exp10.toNat else mant.natAbs
    let b : Nat := if 0 ≤ exp10 then 1 else 10 ^ (-exp10).toNat
    match nearestDoublePos a b with
    | DoubleVal.zero => DoubleVal.zero
    | DoubleVal.finite _ m g => DoubleVal.finite (mant < 0) m g
    | DoubleVal.inf _ => DoubleVal.inf (mant < 0)

/-- Nearest binary64 of a `parseFloat` result. -/
def doubleOfJsDec : JsDec → DoubleVal
  | JsDec.finite m e => doubleOfDec m e
  | JsDec.infinite neg => DoubleVal.inf neg

/-- Print `n / 100` with exactly two decimal places (the common core of
`toFixed(2)` and of rendering a fixed-point cent amount). -/
def fixed2String (n : Int) : String :=
  (if n < 0 then "-" else "") ++ toString (n.natAbs / 100) ++ "." ++
    (if n.natAbs % 100 < 10 then "0" else "") ++ toString (n.natAbs % 100)

/-- The integer `n` with `n / 100` nearest to `(-1)^neg * m * 2 ^ g`
(ties toward the larger `n`), as specified for `Number.prototype.toFixed`. -/
def toFixed2Int (neg : Bool) (m : Nat) (g : Int) : Int :=
  let scaled : Nat × Nat :=
    if 0 ≤ g then (m * 2 ^ g.toNat, 1) else (m, 2 ^ (-g).toNat)
  let sa : Int := if neg then -(scaled.1 : Int) else (scaled.1 : Int)
  Int.fdiv (200 * sa + (scaled.2 : Int)) (2 * (scaled.2 : Int))

/-- Model of `x.toFixed(2)` on a binary64 value (for `|x| < 10 ^ 21`,
which covers every amount the page can receive). -/
def jsToFixed2 : DoubleVal → String
  | DoubleVal.zero => "0.00"
  | DoubleVal.inf neg => if neg then "-Infinity" else "Infinity"
  | DoubleVal.finite neg m g => fixed2String (toFixed2Int neg m g)

/- ===================== JSON ===================== -/

/-- JSON values; numbers keep their exact decimal value `mant * 10 ^ exp10`. -/
inductive Json where
  | null
  | bool (b : Bool)
  | num (mant : Int) (exp10 : Int)
  | str (s : String)
  | arr (elems : List Json)
  | obj (fields : List (String × Json))

/-- Drop leading JSON whitespace (space, tab, line feed, carriage return). -/
def skipWsJ : List Char → List Char
  | [] => []
  | c :: cs => if c = ' ' || c = '\t' || c = '\n' || c = '\r' then skipWsJ cs else c :: cs

/-- Parse the body of a JSON string after the opening quote, handling the
escape sequences of the JSON grammar; returns the decoded string and the
input after the closing quote.  Fuel-driven so that it reduces in the
kernel. -/
def parseStrBody : Nat → List Char → List Char → Option (String × List Char)
  | 0, _, _ => none
  | _ + 1, _, [] => none
  | f + 1, acc, c :: cs =>
    if c.toNat = 34 then some (String.mk acc.reverse, cs)
    else if c.toNat = 92 then
      match cs with
      | [] => none
      | e :: cs2 =>
        if e.toNat = 34 then parseStrBody f (Char.ofNat 34 :: acc) cs2
        else if e.toNat = 92 then parseStrBody f (Char.ofNat 92 :: acc) cs2
        else if e = '/' then parseStrBody f ('/' :: acc) cs2
        else if e = 'b' then parseStrBody f (Char.ofNat 8 :: acc) cs2
        else if e = 'f' then parseStrBody f (Char.ofNat 12 :: acc) cs2
        else if e = 'n' then parseStrBody f ('\n' :: acc) cs2
        else if e = 'r' then parseStrBody f ('\r' :: acc) cs2
        else if e = 't' then parseStrBody f ('\t' :: acc) cs2
        else if e = 'u' then
          match cs2 with
          | h1 :: h2 :: h3 :: h4 :: cs3 =>
            match hexDigit? h1, hexDigit? h2, hexDigit? h3, hexDigit? h4 with
            | some d1, some d2, some d3, some d4 =>
              parseStrBody f (Char.ofNat (((d1 * 16 + d2) * 16 + d3) * 16 + d4) :: acc) cs3
            | _, _, _, _ => none
          | _ => none
        else none
    else if c.toNat < 32 then none
    else parseStrBody f (c :: acc) cs

/-- Parse a JSON number (`-? int frac? exp?` with no leading zeros), giving
its exact decimal value. -/
def parseNumJ (l : List Char) : Option ((Int × Int) × List Char) :=
  let sl : Bool × List Char :=
    match l with
    | '-' :: rest => (true, rest)
    | _ => (false, l)
  let ipart : Option (Nat × List Char) :=
    match sl.2 with
    | '0' :: rest => some (0, rest)
    | c :: rest =>
      match decDigit? c with
      | some d => if d = 0 then none else some ((readDigits decDigit? 10 d 0 rest).1,
          (readDigits decDigit? 10 d 0 rest).2.2)
      | none => none
    | [] => none
  match ipart with
  | none => none
  | some (iv, r1) =>
    let fpart : Option (Nat × Nat × List Char) :=
      match r1 with
      | '.' :: rest =>
        match readDigits decDigit? 10 iv 0 rest with
        | (_, 0, _) => none
        | (v, k + 1, r2) => some (v, k + 1, r2)
      | _ => some (iv, 0, r1)
    match fpart with
    | none => none
    | some (mv, fc, r2) =>
      let mant : Int := if sl.1 then -(mv : Int) else (mv : Int)
      let epart : Option (Int × List Char) :=
        match r2 with
        | 'e' :: rest => parseExpJ rest
        | 'E' :: rest => parseExpJ rest
        | _ => some (0, r2)
      match epart with
      | none => none
      | some (ev, r3) => some ((mant, ev - (fc : Int)), r3)
where
  /-- Exponent part after the `e`/`E` marker: optional sign then digits. -/
  parseExpJ (l : List Char) : Option (Int × List Char) :=
    let sl : Int × List Char :=
      match l with
      | '-' :: rest => (-1, rest)
      | '+' :: rest => (1, rest)
      | _ => (1, l)
    match readDigits decDigit? 10 0 0 sl.2 with
    | (_, 0, _) => none
    | (v, _ + 1, r) => some (sl.1 * (v : Int), r)

mutual

/-- Parse one JSON value (fuel-driven recursive descent). -/
def parseValJ : Nat → List Char → Option (Json × List Char)
  | 0, _ => none
  | f + 1, l =>
    match skipWsJ l with
    | 'n' :: rest => if beginsWith "ull".toList rest then some (Json.null, rest.drop 3) else none
    | 't' :: rest => if beginsWith "rue".toList rest then some (Json.bool true, rest.drop 3) else none
    | 'f' :: rest => if beginsWith "alse".toList rest then some (Json.bool false, rest.drop 4) else none
    | c :: rest =>
      if c.toNat = 34 then
        match parseStrBody (rest.length + 1) [] rest with
        | some (s, r) => some (Json.str s, r)
        | none => none
      else if c = '[' then
        match skipWsJ rest with
        | ']' :: r2 => some (Json.arr [], r2)
        | other => match parseItemsJ f other with
          | some (js, r2) => some (Json.arr js, r2)
          | none => none
      else if c.toNat = 123 then
        match skipWsJ rest with
        | r2 =>
          if beginsWith [Char.ofNat 125] r2 then some (Json.obj [], r2.drop 1)
          else match parseFieldsJ f r2 with
            | some (fs, r3) => some (Json.obj fs, r3)
            | none => none
      else
        match parseNumJ (c :: rest) with
        | some ((m, e), r) => some (Json.num m e, r)
        | none => none
    | [] => none

/-- Parse the comma-separated items of a JSON array up to `]`. -/
def parseItemsJ : Nat → List Char → Option (List Json × List Char)
  | 0, _ => none
  | f + 1, l =>
    match parseValJ f l with
    | none => none
    | some (j, r) =>
      match skipWsJ r with
      | ',' :: r2 => match parseItemsJ f r2 with
        | some (js, r3) => some (j :: js, r3)
        | none => none
      | ']' :: r2 => some ([j], r2)
      | _ => none

/-- Parse the comma-separated fields of a JSON object up to the closing
brace. -/
def parseFieldsJ : Nat → List Char → Option (List (String × Json) × List Char)
  | 0, _ => none
  | f + 1, l =>
    match skipWsJ l with
    | c :: rest =>
      if c.toNat = 34 then
        match parseStrBody (rest.length + 1) [] rest with
        | none => none
        | some (k, r) =>
          match skipWsJ r with
          | ':' :: r2 =>
            match parseValJ f r2 with
            | none => none
            | some (v, r3) =>
              match skipWsJ r3 with
              | ',' :: r4 => match parseFieldsJ f r4 with
                | some (fs, r5) => some ((k, v) :: fs, r5)
                | none => none
              | d :: r4 => if d.toNat = 125 then some ([(k, v)], r4) else none
              | [] => none
          | _ => none
      else none
    | [] => none

end

/-- Model of `JSON.parse`: parse one value surrounded by whitespace, and
require the whole input to be consumed; `none` models a thrown
`SyntaxError`. -/
def jsonParse (s : String) : Option Json :=
  match parseValJ (2 * s.toList.length + 2) s.toList with
  | some (j, rest) =>
    match skipWsJ rest with
    | [] => some j
    | _ :: _ => none
  | none => none

/- ===================== Backend engine (modelled from the spec) ===================== -/

/-- Lexicographic order on character lists by code point, used as the sort
key for ISO `YYYY-MM-DD` dates. -/
def charListLe : List Char → List Char → Bool
  | [], _ => true
  | _ :: _, [] => false
  | a :: as, b :: bs =>
    if a.toNat < b.toNat then true
    else if b.toNat < a.toNat then false
    else charListLe as bs

namespace Engine

/-- Modelled from the spec: section 3 Transaction (the backend FastAPI engine
is not under the given sources).  `date` is an ISO `YYYY-MM-DD` string,
`amount` a fixed-point decimal stored exactly as an integer number of
cents. -/
structure Transaction where
  date : String
  amount : Int
  merchant : String
  description : String
  category : String
  source : String
  kind : String
deriving DecidableEq

/-- Modelled from the spec: section 3 Filter value object. -/
structure Filter where
  month : Option String
  category : Option String
  merchant : Option String
  source : Option String
  kind : Option String
deriving DecidableEq

/-- An empty filter slot matches everything; a set slot requires equality. -/
def matchesOpt (fv : Option String) (tv : String) : Bool :=
  match fv with
  | none => true
  | some v => tv = v

/-- Calendar month `YYYY-MM` of an ISO date `YYYY-MM-DD`. -/
def monthOfDate (d : String) : String := String.mk (d.toList.take 7)

/-- Modelled from the spec: section 4.4/4.5 shared filter predicate — every
non-empty field of the filter must match (logical AND, exact equality per
field except `month`, which matches the calendar month of `date`). -/
def matchesFilter (f : Filter) (t : Transaction) : Bool :=
  matchesOpt f.month (monthOfDate t.date) && matchesOpt f.category t.category &&
    matchesOpt f.merchant t.merchant && matchesOpt f.source t.source &&
    matchesOpt f.kind t.kind

/-- Modelled from the spec: the single filter-application routine shared by
the metric functions and the evidence selector. -/
def applyFilter (store : List Transaction) (f : Filter) : List Transaction :=
  store.filter (matchesFilter f)

/-- Modelled from the spec: section 3 MetricResult. -/
structure MetricResult where
  value : Int
  count : Nat
deriving DecidableEq

/-- Modelled from the spec: section 4.4 metric functions — exact sum of the
amounts of the matching rows, and the size of the full matching set. -/
def computeMetric (store : List Transaction) (f : Filter) : MetricResult :=
  { value := ((applyFilter store f).map Transaction.amount).sum
    count := (applyFilter store f).length }

/-- Evidence ordering: most recent date first. -/
def dateDescRel (a b : Transaction) : Prop :=
  charListLe b.date.toList a.date.toList = true

instance : DecidableRel dateDescRel :=
  fun a b => inferInstanceAs (Decidable (charListLe b.date.toList a.date.toList = true))

/-- Modelled from the spec: section 4.5 — the full matching evidence set,
ordered by date descending, before the caller-supplied limit is applied. -/
def unlimitedEvidence (store : List Transaction) (f : Filter) : List Transaction :=
  List.insertionSort dateDescRel (applyFilter store f)

/-- Modelled from the spec: section 4.5 EvidenceSelector — the same filter
application, truncated to the limit. -/
def selectEvidence (store : List Transaction) (f : Filter) (limit : Nat) : List Transaction :=
  (unlimitedEvidence store f).take limit

/-- Modelled from the spec: section 3 Intent — closed set of intents. -/
inductive Intent where
  | monthly_summary
  | category_total
  | merchant_total
  | source_total
  | clarification_needed
deriving DecidableEq

/-- Modelled from the spec: section 4.3 MetricDispatcher slot validation —
the first required filter slot that is missing for the intent, if any
(`category_total` requires both `month` and `category`, and so on). -/
def missingSlot : Intent → Filter → Option String
  | Intent.monthly_summary, f => if f.month.isNone then some "time period" else none
  | Intent.category_total, f =>
    if f.month.isNone then some "time period"
    else if f.category.isNone then some "category" else none
  | Intent.merchant_total, f =>
    if f.month.isNone then some "time period"
    else if f.merchant.isNone then some "merchant" else none
  | Intent.source_total, f =>
    if f.month.isNone then some "time period"
    else if f.source.isNone then some "source" else none
  | Intent.clarification_needed, _ => some "time period, category, merchant, or source"

/-- Modelled from the spec: section 3 Trace. -/
structure Trace where
  intent : Intent
  resolved_month : Option String
  filters_used : Filter
  called_functions : List String
  evidence_count_returned : Nat
deriving DecidableEq

/-- Modelled from the spec: section 3 Response (the JSON-shaped structure
returned by the `query` operation). -/
structure Response where
  final_answer : Option String
  clarifying_question : Option String
  numbers : List (String × Int)
  evidence : List Transaction
  trace : Trace
deriving DecidableEq

/-- Modelled from the spec: section 4.7 clarification text identifying the
missing information. -/
def clarifyQuestion (slot : String) : String :=
  "Could you specify the " ++ slot ++ "?"

/-- Modelled from the spec: section 4.7 templated answer sentence composed
strictly from the already-computed value and count. -/
def answerText (m : MetricResult) : String :=
  "You spent $" ++ fixed2String m.value ++ " across " ++ toString m.count ++ " transactions."

/-- Modelled from the spec: sections 4.3-4.7 — dispatch the intent, compute
the metric and the evidence from the one shared filter, and assemble the
terminal Response (either an answer or a clarification). -/
def runQuery (store : List Transaction) (intent : Intent) (f : Filter) (limit : Nat) : Response :=
  match missingSlot intent f with
  | some slot =>
    { final_answer := none
      clarifying_question := some (clarifyQuestion slot)
      numbers := []
      evidence := []
      trace := { intent := intent, resolved_month := f.month, filters_used := f
                 called_functions := ["dispatch"], evidence_count_returned := 0 } }
  | none =>
    let m := computeMetric store f
    let ev := selectEvidence store f limit
    { final_answer := some (answerText m)
      clarifying_question := none
      numbers := [("total", m.value), ("count", (m.count : Int))]
      evidence := ev
      trace := { intent := intent, resolved_month := f.month, filters_used := f
                 called_functions := ["dispatch", "metric", "evidence"]
                 evidence_count_returned := ev.length } }

/-- Modelled from the spec: section 6 — the JSON serialization of one
evidence row, an object with exactly the fields
`{date, where, what, amount, category, source}`. -/
def evidenceRowFields (t : Transaction) : List (String × String) :=
  [("date", t.date), ("where", t.merchant), ("what", t.description),
   ("amount", fixed2String t.amount), ("category", t.category), ("source", t.source)]

end Engine

/- ===================== API client (web/src/lib/api.ts) ===================== -/

/-- Default backend base URL from `api.ts`. -/
def defaultApiBase : String := "http://127.0.0.1:8000"

/-- `process.env.NEXT_PUBLIC_API_BASE_URL ?? "http://127.0.0.1:8000"`. -/
def apiBase (env : Option String) : String := env.getD defaultApiBase

/-- An HTTP request as issued through `fetch`. -/
structure HttpRequest where
  method : String
  url : String
  contentType : Option String
  body : String
deriving DecidableEq

/-- An HTTP response as observed through `fetch`: `ok`, `status`,
`statusText`, and the raw body text (`response.text()`); `response.json()`
is modelled by parsing the body text. -/
structure HttpResponse where
  ok : Bool
  status : Nat
  statusText : String
  body : String

/-- Failure of an api.ts call: the thrown `Error` for a non-ok response, or
the rejection of `response.json()` on a non-JSON body. -/
inductive FetchErr where
  | httpError (msg : String)
  | jsonError

/-- The query request payload `{question, month?, limit_evidence?}`. -/
structure QueryPayload where
  question : String
  month : Option String
  limit_evidence : Option Int
deriving DecidableEq

/-- JSON string escaping as performed by `JSON.stringify`. -/
def escChar (c : Char) : List Char :=
  if c.toNat = 34 then [Char.ofNat 92, Char.ofNat 34]
  else if c.toNat = 92 then [Char.ofNat 92, Char.ofNat 92]
  else if c.toNat = 8 then [Char.ofNat 92, 'b']
  else if c.toNat = 9 then [Char.ofNat 92, 't']
  else if c.toNat = 10 then [Char.ofNat 92, 'n']
  else if c.toNat = 12 then [Char.ofNat 92, 'f']
  else if c.toNat = 13 then [Char.ofNat 92, 'r']
  else if c.toNat < 32 then
    [Char.ofNat 92, 'u', '0', '0',
     (if c.toNat / 16 < 10 then Char.ofNat (48 + c.toNat / 16) else Char.ofNat (87 + c.toNat / 16)),
     (if c.toNat % 16 < 10 then Char.ofNat (48 + c.toNat % 16) else Char.ofNat (87 + c.toNat % 16))]
  else [c]

/-- A JSON string literal for `s`, as produced by `JSON.stringify`. -/
def jsonQuote (s : String) : String :=
  "\"" ++ String.mk (s.toList.map escChar).flatten ++ "\""

/-- `JSON.stringify(payload)` for the query payload: the fields appear in
the insertion order of `handleSend` (`question`, then `month`, then
`limit_evidence`), and absent optional fields are omitted. -/
def serializeQueryPayload (p : QueryPayload) : String :=
  "\x7b" ++ "\"question\":" ++ jsonQuote p.question ++
    (match p.month with
     | some m => ",\"month\":" ++ jsonQuote m
     | none => "") ++
    (match p.limit_evidence with
     | some n => ",\"limit_evidence\":" ++ toString n
     | none => "") ++ "\x7d"

/-- The single request `queryFinance` issues: a POST of the JSON-serialized
payload to the `/query` endpoint. -/
def queryRequest (env : Option String) (p : QueryPayload) : HttpRequest :=
  { method := "POST"
    url := apiBase env ++ "/query"
    contentType := some "application/json"
    body := serializeQueryPayload p }

/-- The message of the `Error` thrown by `queryFinance` on a non-ok
response. -/
def queryFailMsg (r : HttpResponse) : String :=
  "Query failed: " ++ toString r.status ++ " " ++ r.statusText ++ " - " ++ r.body

/-- Model of `queryFinance(payload)`: one `fetch` of `queryRequest`, then
either the parsed JSON body (when `response.ok`) or a thrown `Error`
carrying status code and status text.  The second component logs every
request issued through `fetch`. -/
def queryFinanceRun (env : Option String) (server : HttpRequest → HttpResponse)
    (p : QueryPayload) : Except FetchErr Json × List HttpRequest :=
  let req := queryRequest env p
  let resp := server req
  if resp.ok then
    match jsonParse resp.body with
    | some j => (Except.ok j, [req])
    | none => (Except.error FetchErr.jsonError, [req])
  else (Except.error (FetchErr.httpError (queryFailMsg resp)), [req])

/-- The single request `ingestCsv` issues: a POST of the file to
`/ingest?replace=true` (multipart body, no explicit content type). -/
def ingestRequest (env : Option String) (fileBody : String) : HttpRequest :=
  { method := "POST"
    url := apiBase env ++ "/ingest?replace=true"
    contentType := none
    body := fileBody }

/-- The message of the `Error` thrown by `ingestCsv` on a non-ok response. -/
def ingestFailMsg (r : HttpResponse) : String :=
  "CSV ingestion failed: " ++ toString r.status ++ " " ++ r.statusText ++ " - " ++ r.body

/-- Model of `ingestCsv(file)`: one `fetch` of `ingestRequest`, then either
the parsed JSON body or a thrown `Error`. -/
def ingestCsvRun (env : Option String) (server : HttpRequest → HttpResponse)
    (fileBody : String) : Except FetchErr Json × List HttpRequest :=
  let req := ingestRequest env fileBody
  let resp := server req
  if resp.ok then
    match jsonParse resp.body with
    | some j => (Except.ok j, [req])
    | none => (Except.error FetchErr.jsonError, [req])
  else (Except.error (FetchErr.httpError (ingestFailMsg resp)), [req])

/-- Substring test on character lists (contiguous segment). -/
def containsSeg : List Char → List Char → Bool
  | pat, [] => beginsWith pat []
  | pat, c :: cs => beginsWith pat (c :: cs) || containsSeg pat cs

/- ===================== Chat page (web/app/chat/page.tsx) ===================== -/

/-- The role of a chat message. -/
inductive Role where
  | user
  | assistant
deriving DecidableEq

/-- The `Message` interface of the chat page; `data` stores the full query
response for assistant messages. -/
structure ChatMsg where
  id : String
  role : Role
  content : String
  data : Option Engine.Response
deriving DecidableEq

/-- The state hooks of `ChatPage`. -/
structure ChatState where
  messages : List ChatMsg
  input : String
  month : String
  limitEvidence : Int
  isLoading : Bool
  csvName : Option String
  csvPreview : Option Json

/-- `useState<number>(20)`: the initial evidence-limit state. -/
def initialLimitEvidence : Int := 20

/-- The initial chat page state. -/
def initialChatState : ChatState :=
  { messages := [], input := "", month := "", limitEvidence := initialLimitEvidence
    isLoading := false, csvName := none, csvPreview := none }

/-- The `onChange` handler of the evidence-limit input:
`setLimitEvidence(parseInt(e.target.value) || 20)` — `NaN` and `0` fall
through to `20`. -/
def limitOnChange (text : String) : Int :=
  match parseIntJS text with
  | none => 20
  | some n => if n = 0 then 20 else n

/-- The request payload built inside `handleSend` from the current state:
`question` is the raw input, `month` is included when its trim is truthy,
`limit_evidence` is included when the current limit is strictly positive. -/
def buildPayload (input month : String) (limitEvidence : Int) : QueryPayload :=
  { question := input
    month := if truthyStr (jsTrim month) then some (jsTrim month) else none
    limit_evidence := if 0 < limitEvidence then some limitEvidence else none }

/-- The assistant-message content for a successful response:
`response.final_answer || response.clarifying_question || "No response"`. -/
def messageContent (r : Engine.Response) : String :=
  if truthyOptStr r.final_answer then r.final_answer.getD ""
  else if truthyOptStr r.clarifying_question then r.clarifying_question.getD ""
  else "No response"

/-- The user message appended at the start of `handleSend`; `now` models
`Date.now()`. -/
def userMsg (st : ChatState) (now : Nat) : ChatMsg :=
  { id := toString now, role := Role.user, content := st.input, data := none }

/-- The assistant message appended when the query settles: on success its
content comes from the response, on failure it is the `Error: ...` text. -/
def assistantMsgOf (now : Nat) (result : Except String Engine.Response) : ChatMsg :=
  match result with
  | Except.ok r =>
    { id := toString (now + 1), role := Role.assistant, content := messageContent r
      data := some r }
  | Except.error e =>
    { id := toString (now + 1), role := Role.assistant, content := "Error: " ++ e
      data := none }

/-- Model of `handleSend`: the final state and the list of query requests
issued.  The guard returns unchanged with no request when the trimmed input
is empty or a request is already loading; otherwise exactly one request is
issued and the user and assistant messages are appended, with `isLoading`
cleared by the `finally` block.  `result` is the settled outcome of the
awaited `queryFinance` call. -/
def handleSend (st : ChatState) (now : Nat) (result : Except String Engine.Response) :
    ChatState × List QueryPayload :=
  if !truthyStr (jsTrim st.input) || st.isLoading then (st, [])
  else
    ({ st with
        messages := st.messages ++ [userMsg st now, assistantMsgOf now result]
        input := ""
        isLoading := false },
      [buildPayload st.input st.month st.limitEvidence])

/-- One observable step of `handleSend`, in program order. -/
inductive ChatEvent where
  | appendMsg (m : ChatMsg)
  | setInput (s : String)
  | setLoading (b : Bool)
  | sendRequest (p : QueryPayload)

/-- The ordered event trace of one `handleSend` call: append the user
message, clear the input, set the loading flag, issue the request, append
the assistant message, clear the loading flag (the guard produces no
events). -/
def handleSendEvents (st : ChatState) (now : Nat)
    (result : Except String Engine.Response) : List ChatEvent :=
  if !truthyStr (jsTrim st.input) || st.isLoading then []
  else
    [ChatEvent.appendMsg (userMsg st now), ChatEvent.setInput "",
     ChatEvent.setLoading true,
     ChatEvent.sendRequest (buildPayload st.input st.month st.limitEvidence),
     ChatEvent.appendMsg (assistantMsgOf now result),
     ChatEvent.setLoading false]

/-- Is this event a query request? -/
def isRequestEvt : ChatEvent → Bool
  | ChatEvent.sendRequest _ => true
  | _ => false

/-- Is this event the append of an assistant message? -/
def isAssistantAppend : ChatEvent → Bool
  | ChatEvent.appendMsg m => m.role = Role.assistant
  | _ => false

/-- Does every request event in the trace happen while the loading flag is
set, starting from the given flag value? -/
def requestsWhileLoading : Bool → List ChatEvent → Bool
  | _, [] => true
  | b, e :: es =>
    match e with
    | ChatEvent.setLoading v => requestsWhileLoading v es
    | ChatEvent.sendRequest _ => b && requestsWhileLoading b es
    | _ => requestsWhileLoading b es

/-- The mount effect of `ChatPage` for the stored CSV preview: when the
stored string is truthy, `JSON.parse` it, and fall back to `null` in the
`catch`; otherwise the state keeps its initial `null`. -/
def mountCsvPreview (stored : Option String) : Option Json :=
  match stored with
  | none => none
  | some s => if truthyStr s then jsonParse s else none

/-- JavaScript truthiness of a parsed JSON value. -/
def jsonTruthy : Json → Bool
  | Json.null => false
  | Json.bool b => b
  | Json.num m _ => !(m = 0)
  | Json.str s => truthyStr s
  | Json.arr _ => true
  | Json.obj _ => true

/-- Is the `.length` property of a parsed JSON value `=== 0`?  Only arrays
and strings have a numeric `length`; elsewhere `length` is `undefined` and
the strict comparison is false. -/
def jsonLengthIsZero : Json → Bool
  | Json.arr l => l.isEmpty
  | Json.str s => s = ""
  | _ => false

/-- The `disabled` expression of the View CSV button:
`!csvPreview || csvPreview.length === 0`. -/
def viewCsvDisabled (preview : Option Json) : Bool :=
  match preview with
  | none => true
  | some j => !jsonTruthy j || jsonLengthIsZero j

/- ===================== Evidence table rendering ===================== -/

/-- A text cell of the evidence table: `value || "-"`. -/
def renderCell (v : Option String) : String :=
  match v with
  | none => "-"
  | some s => if truthyStr s then s else "-"

/-- The amount cell of the evidence table:
`row.amount ? `$${parseFloat(row.amount).toFixed(2)}` : "-"`. -/
def renderAmountCell (v : Option String) : String :=
  match v with
  | none => "-"
  | some s =>
    if truthyStr s then
      match parseFloatJS s with
      | none => "$NaN"
      | some d => "$" ++ jsToFixed2 (doubleOfJsDec d)
    else "-"

/-- The six keys the evidence table reads from each row. -/
def evidenceKeys : List String :=
  ["date", "where", "what", "amount", "category", "source"]

/-- One rendered row of the evidence table: the six cells, in column
order, each falling back to the `-` placeholder. -/
def renderRow (row : List (String × String)) : List String :=
  [renderCell (row.lookup "date"), renderCell (row.lookup "where"),
   renderCell (row.lookup "what"), renderAmountCell (row.lookup "amount"),
   renderCell (row.lookup "category"), renderCell (row.lookup "source")]

/-- Modelled from the spec: rendering an amount at its stored decimal
precision ("exact fixed-point or arbitrary-precision decimal type
throughout"), with the same two-decimal display convention but no binary
floating-point round-trip. -/
def renderAmountExact (s : String) : String :=
  if truthyStr s then
    match parseFloatJS s with
    | some (JsDec.finite mant exp10) =>
      let a : Int := if 0 ≤ exp10 then mant * 10 ^ exp10.toNat else mant
      let b : Int := if 0 ≤ exp10 then 1 else 10 ^ (-exp10).toNat
      "$" ++ fixed2String (Int.fdiv (200 * a + b) (2 * b))
    | _ => "$NaN"
  else "-"

/- ===================== Concrete sample data for witnesses ===================== -/

/-- A June transaction from the documented example dataset. -/
def sampleT1 : Engine.Transaction :=
  { date := "2025-06-30", amount := 2371, merchant := "Strings Ramen"
    description := "Ramen", category := "Food", source := "Chase", kind := "expense" }

/-- A second, earlier June transaction. -/
def sampleT2 : Engine.Transaction :=
  { date := "2025-06-28", amount := 1229, merchant := "Thai Essence"
    description := "Noodles", category := "Food", source := "Chase", kind := "expense" }

/-- A transaction outside the sample month. -/
def sampleT3 : Engine.Transaction :=
  { date := "2025-05-02", amount := 1000, merchant := "Thai Essence"
    description := "Noodles", category := "Food", source := "Chase", kind := "expense" }

/-- A small store exercising filtering and date-descending ordering. -/
def sampleStore : List Engine.Transaction := [sampleT3, sampleT2, sampleT1]

/-- A fully-resolved filter for `category_total`. -/
def sampleFilter : Engine.Filter :=
  { month := some "2025-06", category := some "Food", merchant := none
    source := none, kind := none }

/-- The all-empty filter. -/
def emptyFilter : Engine.Filter :=
  { month := none, category := none, merchant := none, source := none, kind := none }

/-- A chat state ready to send a question. -/
def sampleChatState : ChatState :=
  { messages := [], input := "How much did I spend on Food?", month := " 2025-06 "
    limitEvidence := 20, isLoading := false, csvName := some "a.csv", csvPreview := none }

/-- A chat state with whitespace-only input. -/
def blankChatState : ChatState :=
  { messages := [], input := "   ", month := "", limitEvidence := 20
    isLoading := false, csvName := none, csvPreview := none }

/-- A concrete query payload. -/
def samplePayload : QueryPayload :=
  { question := "hi", month := none, limit_evidence := some 20 }

/-- A server that always answers `200 OK` with the JSON body `[1]`. -/
def sampleOkServer : HttpRequest → HttpResponse :=
  fun _ => { ok := true, status := 200, statusText := "OK", body := "[1]" }

/-- A server that always fails with `500`. -/
def sampleFailServer : HttpRequest → HttpResponse :=
  fun _ => { ok := false, status := 500, statusText := "Internal Server Error", body := "boom" }

/- ===================== Helper lemmas ===================== -/

theorem truthyStr_append (a b : String) (h : truthyStr a = true) :
    truthyStr (a ++ b) = true := by
  cases a with
  | mk da =>
    cases da with
    | nil => simp [truthyStr, String.toList] at h
    | cons c cs => simp [truthyStr, String.toList, String.data_append]

theorem beginsWith_append (p r : List Char) : beginsWith p (p ++ r) = true := by
  induction p with
  | nil => rfl
  | cons c cs ih => simp [beginsWith, ih]

theorem containsSeg_append (pre pat suf : List Char) :
    containsSeg pat (pre ++ (pat ++ suf)) = true := by
  induction pre with
  | nil =>
    cases hp : pat ++ suf with
    | nil =>
      have : pat = [] := by
        cases pat with
        | nil => rfl
        | cons c cs => simp at hp
      simp [this, containsSeg, beginsWith]
    | cons c cs => simp [containsSeg, ← hp, beginsWith_append]
  | cons c cs ih => simp [containsSeg, ih]

/- ===================== Claim theorems ===================== -/

/-- C1: for every fully-resolved query (no missing filter slot), the sum of
the amounts of the unlimited matching evidence set equals the reported
metric value exactly (integer cents, no floating-point approximation), and
the size of the unlimited evidence set equals the reported count. -/
theorem c1_evidence_metric_consistency (store : List Engine.Transaction)
    (intent : Engine.Intent) (f : Engine.Filter) (limit : Nat)
    (h : Engine.missingSlot intent f = none) :
    (Engine.runQuery store intent f limit).numbers
      = [("total", ((Engine.unlimitedEvidence store f).map Engine.Transaction.amount).sum),
         ("count", ((Engine.unlimitedEvidence store f).length : Int))] := by
  have hperm := List.perm_insertionSort Engine.dateDescRel (Engine.applyFilter store f)
  have hsum : ((Engine.unlimitedEvidence store f).map Engine.Transaction.amount).sum
      = ((Engine.applyFilter store f).map Engine.Transaction.amount).sum :=
    (hperm.map Engine.Transaction.amount).sum_eq
  have hlen : (Engine.unlimitedEvidence store f).length = (Engine.applyFilter store f).length :=
    hperm.length_eq
  simp [Engine.runQuery, h, Engine.computeMetric, hsum, hlen]

/-- C1 witness: the consistency invariant at a concrete store and filter,
with the reported numbers evaluated concretely. -/
theorem c1_witness :
    Engine.missingSlot Engine.Intent.category_total sampleFilter = none ∧
    (Engine.runQuery sampleStore Engine.Intent.category_total sampleFilter 20).numbers
      = [("total",
          ((Engine.unlimitedEvidence sampleStore sampleFilter).map Engine.Transaction.amount).sum),
         ("count", ((Engine.unlimitedEvidence sampleStore sampleFilter).length : Int))] ∧
    (Engine.runQuery sampleStore Engine.Intent.category_total sampleFilter 20).numbers
      = [("total", 3600), ("count", 2)] :=
  ⟨rfl,
   c1_evidence_metric_consistency sampleStore Engine.Intent.category_total sampleFilter 20 rfl,
   by decide⟩

/-- C2: every terminal Response populates exactly one of `final_answer` and
`clarifying_question`, and the chat page shows `final_answer` when it is
populated and `clarifying_question` otherwise. -/
theorem c2_exactly_one (store : List Engine.Transaction) (intent : Engine.Intent)
    (f : Engine.Filter) (limit : Nat) :
    (((Engine.runQuery store intent f limit).final_answer.isSome = true ∧
        (Engine.runQuery store intent f limit).clarifying_question = none) ∨
      ((Engine.runQuery store intent f limit).final_answer = none ∧
        (Engine.runQuery store intent f limit).clarifying_question.isSome = true)) ∧
    (∀ a, (Engine.runQuery store intent f limit).final_answer = some a →
      messageContent (Engine.runQuery store intent f limit) = a) ∧
    (∀ q, (Engine.runQuery store intent f limit).final_answer = none →
      (Engine.runQuery store intent f limit).clarifying_question = some q →
      messageContent (Engine.runQuery store intent f limit) = q) := by
  cases hm : Engine.missingSlot intent f with
  | some slot =>
    refine ⟨Or.inr ?_, ?_, ?_⟩
    · simp [Engine.runQuery, hm]
    · intro a ha
      simp [Engine.runQuery, hm] at ha
    · intro q _ hq
      simp [Engine.runQuery, hm] at hq ⊢
      have ht : truthyStr (Engine.clarifyQuestion slot) = true :=
        truthyStr_append "Could you specify the " (slot ++ "?") rfl
      simp [messageContent, truthyOptStr, Engine.clarifyQuestion] at ht ⊢
      simp [Engine.runQuery, hm, ht, ← hq, Engine.clarifyQuestion]
  | none =>
    refine ⟨Or.inl ?_, ?_, ?_⟩
    · simp [Engine.runQuery, hm]
    · intro a ha
      have ht : truthyStr (Engine.answerText (Engine.computeMetric store f)) = true :=
        truthyStr_append "You spent $" _ rfl
      simp [Engine.runQuery, hm] at ha
      subst ha
      simp [messageContent, Engine.runQuery, hm, truthyOptStr, ht]
    · intro q hq
      simp [Engine.runQuery, hm] at hq

/-- C2 witness: the content selection at one clarification response and one
answered response. -/
theorem c2_witness :
    messageContent (Engine.runQuery sampleStore Engine.Intent.clarification_needed emptyFilter 20)
      = "Could you specify the time period, category, merchant, or source?" ∧
    messageContent (Engine.runQuery sampleStore Engine.Intent.category_total sampleFilter 20)
      = "You spent $36.00 across 2 transactions." :=
  ⟨(c2_exactly_one sampleStore Engine.Intent.clarification_needed emptyFilter 20).2.2 _ rfl rfl,
   (c2_exactly_one sampleStore Engine.Intent.category_total sampleFilter 20).2.1 _ rfl⟩

/-- C3: the evidence-limit state starts at 20; the payload carries
`limit_evidence` exactly when the current limit is strictly positive (and
then equals it); non-numeric or zero input text becomes 20; and no request
issued by `handleSend` ever carries a non-positive `limit_evidence`. -/
theorem c3_limit_evidence (t : String)
    (ht : parseIntJS t = none ∨ parseIntJS t = some 0)
    (q m : String) (lim : Int) :
    initialLimitEvidence = 20 ∧
    limitOnChange t = 20 ∧
    (0 < lim → (buildPayload q m lim).limit_evidence = some lim) ∧
    (lim ≤ 0 → (buildPayload q m lim).limit_evidence = none) ∧
    (∀ v, (buildPayload q m lim).limit_evidence = some v → 0 < v) ∧
    (∀ (st : ChatState) (now : Nat) (result : Except String Engine.Response)
        (p : QueryPayload) (v : Int),
      p ∈ (handleSend st now result).2 → p.limit_evidence = some v → 0 < v) := by
  refine ⟨rfl, ?_, ?_, ?_, ?_, ?_⟩
  · rcases ht with h | h <;> simp [limitOnChange, h]
  · intro hpos
    simp [buildPayload, hpos]
  · intro hnp
    simp [buildPayload, not_lt.mpr hnp]
  · intro v hv
    by_cases hpos : 0 < lim
    · simp [buildPayload, hpos] at hv
      omega
    · simp [buildPayload, hpos] at hv
  · intro st now result p v hp hv
    by_cases hg : !truthyStr (jsTrim st.input) || st.isLoading
    · simp [handleSend, hg] at hp
    · simp [handleSend, hg] at hp
      subst hp
      by_cases hpos : 0 < st.limitEvidence
      · simp [buildPayload, hpos] at hv
        omega
      · simp [buildPayload, hpos] at hv

/-- C3 witness: concrete limit behaviour for non-numeric text, zero text, a
positive limit and a negative limit. -/
theorem c3_witness :
    limitOnChange "abc" = 20 ∧ limitOnChange "0" = 20 ∧
    (buildPayload "How much" "" 5).limit_evidence = some 5 ∧
    (buildPayload "How much" "" (-5)).limit_evidence = none :=
  ⟨(c3_limit_evidence "abc" (Or.inl rfl) "How much" "" 5).2.1,
   (c3_limit_evidence "0" (Or.inr rfl) "How much" "" 5).2.1,
   (c3_limit_evidence "abc" (Or.inl rfl) "How much" "" 5).2.2.1 (by decide),
   (c3_limit_evidence "abc" (Or.inl rfl) "How much" "" (-5)).2.2.2.1 (by decide)⟩

/-- C4: `queryFinance` issues exactly one POST of the JSON-serialized
payload to `/query`; it returns the parsed JSON body exactly when the
response is ok, and on a non-ok response throws an Error whose message
contains the status code and status text, without retrying. -/
theorem c4_query_finance (env : Option String) (server : HttpRequest → HttpResponse)
    (p : QueryPayload) :
    (queryFinanceRun env server p).2 = [queryRequest env p] ∧
    (queryRequest env p).method = "POST" ∧
    (queryRequest env p).url = apiBase env ++ "/query" ∧
    (queryRequest env p).body = serializeQueryPayload p ∧
    (∀ j, (server (queryRequest env p)).ok = true →
      jsonParse (server (queryRequest env p)).body = some j →
      (queryFinanceRun env server p).1 = Except.ok j) ∧
    (∀ j, (queryFinanceRun env server p).1 = Except.ok j →
      (server (queryRequest env p)).ok = true ∧
      jsonParse (server (queryRequest env p)).body = some j) ∧
    ((server (queryRequest env p)).ok = false →
      (queryFinanceRun env server p).1
        = Except.error (FetchErr.httpError (queryFailMsg (server (queryRequest env p))))) ∧
    containsSeg (toString (server (queryRequest env p)).status).toList
      (queryFailMsg (server (queryRequest env p))).toList = true ∧
    containsSeg (server (queryRequest env p)).statusText.toList
      (queryFailMsg (server (queryRequest env p))).toList = true := by
  refine ⟨?_, rfl, rfl, rfl, ?_, ?_, ?_, ?_, ?_⟩
  · simp [queryFinanceRun]
    rcases h : (server (queryRequest env p)).ok with _ | _ <;> simp [h]
    cases jsonParse (server (queryRequest env p)).body <;> simp
  · intro j hok hj
    simp [queryFinanceRun, hok, hj]
  · intro j hres
    rcases h : (server (queryRequest env p)).ok with _ | _
    · simp [queryFinanceRun, h] at hres
    · refine ⟨rfl, ?_⟩
      cases hj : jsonParse (server (queryRequest env p)).body with
      | none => simp [queryFinanceRun, h, hj] at hres
      | some j2 =>
        simp [queryFinanceRun, h, hj] at hres
        rw [hres]
  · intro hok
    simp [queryFinanceRun, hok]
  · have h2 : (queryFailMsg (server (queryRequest env p))).toList
        = "Query failed: ".toList ++
          ((toString (server (queryRequest env p)).status).toList ++
            (" " ++ (server (queryRequest env p)).statusText ++ " - " ++
              (server (queryRequest env p)).body).toList) := by
      simp [queryFailMsg, String.toList, String.data_append, List.append_assoc]
    rw [h2]
    exact containsSeg_append _ _ _
  · have h2 : (queryFailMsg (server (queryRequest env p))).toList
        = ("Query failed: ".toList ++ (toString (server (queryRequest env p)).status).toList
            ++ " ".toList) ++
          ((server (queryRequest env p)).statusText.toList ++
            (" - " ++ (server (queryRequest env p)).body).toList) := by
      simp [queryFailMsg, String.toList, String.data_append, List.append_assoc]
    rw [h2]
    exact containsSeg_append _ _ _

/-- C4 witness: one concrete ok call (parsed body returned, single request,
serialized payload) and one concrete failing call (thrown message carries
status and text). -/
theorem c4_witness :
    (queryFinanceRun none sampleOkServer samplePayload).1 = Except.ok (Json.arr [Json.num 1 0]) ∧
    (queryFinanceRun none sampleOkServer samplePayload).2 = [queryRequest none samplePayload] ∧
    (queryRequest none samplePayload).body = "\x7b\"question\":\"hi\",\"limit_evidence\":20\x7d" ∧
    (queryFinanceRun none sampleFailServer samplePayload).1
      = Except.error (FetchErr.httpError "Query failed: 500 Internal Server Error - boom") :=
  ⟨(c4_query_finance none sampleOkServer samplePayload).2.2.2.2.1 (Json.arr [Json.num 1 0]) rfl rfl,
   (c4_query_finance none sampleOkServer samplePayload).1,
   by decide,
   ((c4_query_finance none sampleFailServer samplePayload).2.2.2.2.2.2.1 rfl).trans rfl⟩

/-- C5: a chat submission whose query fails appends exactly one assistant
message, whose content begins with the text Error:, clears the loading
flag, and issues exactly one request (no retry). -/
theorem c5_error_path (st : ChatState) (now : Nat) (e : String)
    (hin : truthyStr (jsTrim st.input) = true) (hload : st.isLoading = false) :
    (handleSend st now (Except.error e)).1.messages
      = st.messages ++ [userMsg st now, assistantMsgOf now (Except.error e)] ∧
    (assistantMsgOf now (Except.error e)).role = Role.assistant ∧
    (assistantMsgOf now (Except.error e)).content = "Error: " ++ e ∧
    String.mk ((assistantMsgOf now (Except.error e)).content.toList.take 6) = "Error:" ∧
    List.countP (fun m => decide (m.role = Role.assistant))
        (handleSend st now (Except.error e)).1.messages
      = List.countP (fun m => decide (m.role = Role.assistant)) st.messages + 1 ∧
    (handleSend st now (Except.error e)).1.isLoading = false ∧
    (handleSend st now (Except.error e)).2
      = [buildPayload st.input st.month st.limitEvidence] := by
  have hg : (!truthyStr (jsTrim st.input) || st.isLoading) = false := by
    simp [hin, hload]
  refine ⟨?_, rfl, rfl, ?_, ?_, ?_, ?_⟩
  · simp [handleSend, hg]
  · have : (assistantMsgOf now (Except.error e)).content.toList
        = "Error: ".toList ++ e.toList := by
      simp [assistantMsgOf, String.toList, String.data_append]
    rw [this, List.take_append_of_le_length (by simp [String.toList])]
    rfl
  · simp [handleSend, hg, List.countP_append, userMsg, assistantMsgOf, List.countP_cons]
  · simp [handleSend, hg]
  · simp [handleSend, hg]

/-- C5 witness: the failing path at a concrete state and error. -/
theorem c5_witness :
    (handleSend sampleChatState 7 (Except.error "boom")).1.messages
      = [userMsg sampleChatState 7, assistantMsgOf 7 (Except.error "boom")] ∧
    (assistantMsgOf 7 (Except.error "boom")).content = "Error: boom" ∧
    (handleSend sampleChatState 7 (Except.error "boom")).1.isLoading = false ∧
    (handleSend sampleChatState 7 (Except.error "boom")).2
      = [buildPayload sampleChatState.input sampleChatState.month
          sampleChatState.limitEvidence] := by
  have h := c5_error_path sampleChatState 7 "boom" rfl rfl
  exact ⟨h.1, h.2.2.1.trans rfl, h.2.2.2.2.2.1, h.2.2.2.2.2.2⟩

/-- C6: every ingestion request issued by the client goes to
`/ingest?replace=true` as a single POST of the file, so ingestion through
this client is always a replace-ingestion. -/
theorem c6_ingest_replace (env : Option String) (server : HttpRequest → HttpResponse)
    (fileBody : String) :
    (ingestCsvRun env server fileBody).2 = [ingestRequest env fileBody] ∧
    (ingestRequest env fileBody).method = "POST" ∧
    (ingestRequest env fileBody).url = apiBase env ++ "/ingest?replace=true" ∧
    (ingestRequest env fileBody).body = fileBody ∧
    containsSeg "replace=true".toList (ingestRequest env fileBody).url.toList = true := by
  refine ⟨?_, rfl, rfl, rfl, ?_⟩
  · simp [ingestCsvRun]
    rcases h : (server (ingestRequest env fileBody)).ok with _ | _ <;> simp [h]
    cases jsonParse (server (ingestRequest env fileBody)).body <;> simp
  · have h2 : (ingestRequest env fileBody).url.toList
        = (apiBase env ++ "/ingest?").toList ++ ("replace=true".toList ++ []) := by
      have : apiBase env ++ "/ingest?replace=true"
          = (apiBase env ++ "/ingest?") ++ "replace=true" := by
        simp [String.ext_iff, String.data_append, List.append_assoc]
      simp [ingestRequest, this, String.toList, String.data_append]
    rw [h2]
    exact containsSeg_append _ _ _

/-- C7 counterexample: the evidence renderer applies binary floating point
to the amount — for the amount string 0.615 it shows $0.61
(`parseFloat` then `toFixed(2)` on the nearest binary64), while exact
decimal rendering at the stored precision gives $0.62. -/
theorem c7_counterexample :
    renderAmountCell (some "0.615") = "$0.61" ∧
    renderAmountExact "0.615" = "$0.62" ∧
    ¬ renderAmountCell (some "0.615") = renderAmountExact "0.615" := by
  refine ⟨by decide, by decide, by decide⟩

/-- C7 (amended): the engine computes amounts with exact fixed-point
arithmetic, but the chat page's evidence renderer does apply binary
floating point to amount values — every truthy amount string is rendered
through `parseFloat` and binary64 `toFixed(2)`, which differs from exact
decimal rendering. -/
theorem c7_amended_float_at_render :
    (∀ (store : List Engine.Transaction) (f : Engine.Filter),
      (Engine.computeMetric store f).value
        = ((Engine.applyFilter store f).map Engine.Transaction.amount).sum) ∧
    (∀ s : String, truthyStr s = true →
      renderAmountCell (some s)
        = (match parseFloatJS s with
           | none => "$NaN"
           | some d => "$" ++ jsToFixed2 (doubleOfJsDec d))) ∧
    renderAmountCell (some "0.615") ≠ renderAmountExact "0.615" := by
  refine ⟨fun _ _ => rfl, ?_, by decide⟩
  intro s hs
  simp [renderAmountCell, hs]

/-- C7 witness: the float-rendering equation at a concrete amount string. -/
theorem c7_witness :
    renderAmountCell (some "1.50")
      = (match parseFloatJS "1.50" with
         | none => "$NaN"
         | some d => "$" ++ jsToFixed2 (doubleOfJsDec d)) ∧
    renderAmountCell (some "1.50") = "$1.50" :=
  ⟨c7_amended_float_at_render.2.1 "1.50" rfl, by decide⟩

/-- C8: every evidence row carries exactly the six fields
date, where, what, amount, category, source; the evidence table reads
exactly those six keys of each row, and renders the dash placeholder for
empty or missing fields. -/
theorem c8_evidence_row_shape :
    (∀ t : Engine.Transaction, (Engine.evidenceRowFields t).map Prod.fst = evidenceKeys) ∧
    (∀ r1 r2 : List (String × String),
      (∀ k ∈ evidenceKeys, r1.lookup k = r2.lookup k) → renderRow r1 = renderRow r2) ∧
    renderCell none = "-" ∧ renderCell (some "") = "-" ∧
    renderAmountCell none = "-" ∧ renderAmountCell (some "") = "-" := by
  refine ⟨fun t => rfl, ?_, rfl, rfl, rfl, rfl⟩
  intro r1 r2 h
  have h1 := h "date" (by simp [evidenceKeys])
  have h2 := h "where" (by simp [evidenceKeys])
  have h3 := h "what" (by simp [evidenceKeys])
  have h4 := h "amount" (by simp [evidenceKeys])
  have h5 := h "category" (by simp [evidenceKeys])
  have h6 := h "source" (by simp [evidenceKeys])
  simp [renderRow, h1, h2, h3, h4, h5, h6]

/-- C8 witness: a concrete row renders identically when an extra field is
present, and concretely produces the six cells with a placeholder for the
empty description. -/
theorem c8_witness :
    (Engine.evidenceRowFields sampleT1).map Prod.fst = evidenceKeys ∧
    renderRow [("date", "2025-06-30"), ("where", "Strings Ramen"), ("what", ""),
               ("amount", "23.71"), ("category", "Food"), ("source", "Chase")]
      = renderRow [("source", "Chase"), ("category", "Food"), ("amount", "23.71"),
                   ("what", ""), ("where", "Strings Ramen"), ("date", "2025-06-30"),
                   ("extra", "ignored")] ∧
    renderRow [("date", "2025-06-30"), ("where", "Strings Ramen"), ("what", ""),
               ("amount", "23.71"), ("category", "Food"), ("source", "Chase")]
      = ["2025-06-30", "Strings Ramen", "-", "$23.71", "Food", "Chase"] :=
  ⟨c8_evidence_row_shape.1 sampleT1,
   c8_evidence_row_shape.2.1 _ _ (by decide),
   by decide⟩

/-- C9: `handleSend` is a no-op on empty/whitespace input or while a
request is loading; at most one request and at most one assistant append
per call; every request happens while the loading flag is set; and on the
go path the loading flag ends cleared, the trace ends by clearing it, and
exactly two messages are appended. -/
theorem c9_single_flight (st : ChatState) (now : Nat)
    (result : Except String Engine.Response) :
    ((truthyStr (jsTrim st.input) = false ∨ st.isLoading = true) →
      handleSend st now result = (st, []) ∧ handleSendEvents st now result = []) ∧
    (handleSend st now result).2.length ≤ 1 ∧
    List.countP isRequestEvt (handleSendEvents st now result) ≤ 1 ∧
    List.countP isAssistantAppend (handleSendEvents st now result) ≤ 1 ∧
    requestsWhileLoading st.isLoading (handleSendEvents st now result) = true ∧
    (truthyStr (jsTrim st.input) = true → st.isLoading = false →
      (handleSend st now result).1.isLoading = false ∧
      (handleSend st now result).1.messages.length = st.messages.length + 2 ∧
      (handleSendEvents st now result).getLast? = some (ChatEvent.setLoading false)) := by
  by_cases hg : (!truthyStr (jsTrim st.input) || st.isLoading) = true
  · refine ⟨fun _ => ⟨?_, ?_⟩, ?_, ?_, ?_, ?_, ?_⟩
    · simp [handleSend, hg]
    · simp [handleSendEvents, hg]
    · simp [handleSend, hg]
    · simp [handleSendEvents, hg]
    · simp [handleSendEvents, hg]
    · simp [handleSendEvents, hg, requestsWhileLoading]
    · intro hin hload
      simp [hin, hload] at hg
  · have hg2 : (!truthyStr (jsTrim st.input) || st.isLoading) = false := by
      simpa using hg
    have hload : st.isLoading = false := by
      rcases Bool.or_eq_false_iff.mp hg2 with ⟨_, h⟩
      exact h
    refine ⟨?_, ?_, ?_, ?_, ?_, ?_⟩
    · intro hcase
      rcases Bool.or_eq_false_iff.mp hg2 with ⟨h1, h2⟩
      rcases hcase with h | h
      · simp [h] at h1
      · rw [h] at h2
        exact absurd h2 (by simp)
    · simp [handleSend, hg2]
    · simp [handleSendEvents, hg2, List.countP_cons, isRequestEvt]
    · simp [handleSendEvents, hg2, List.countP_cons, isAssistantAppend, userMsg]
      cases result <;> simp [assistantMsgOf]
    · have hin : truthyStr (jsTrim st.input) = true := by
        rcases Bool.or_eq_false_iff.mp hg2 with ⟨h1, _⟩
        simpa using h1
      simp [handleSendEvents, hg2, hin, hload, requestsWhileLoading]
    · intro _ _
      refine ⟨?_, ?_, ?_⟩
      · simp [handleSend, hg2]
      · simp [handleSend, hg2]
      · simp [handleSendEvents, hg2]

/-- C9 witness: the guard no-op on whitespace-only input, and the single
request with the loading flag cleared on a concrete go path. -/
theorem c9_witness :
    handleSend blankChatState 3 (Except.error "x") = (blankChatState, []) ∧
    handleSendEvents blankChatState 3 (Except.error "x") = [] ∧
    (handleSend sampleChatState 3 (Except.error "x")).2.length ≤ 1 ∧
    (handleSend sampleChatState 3 (Except.error "x")).1.isLoading = false := by
  have hb := c9_single_flight blankChatState 3 (Except.error "x")
  have hs := c9_single_flight sampleChatState 3 (Except.error "x")
  have hguard := hb.1 (Or.inl rfl)
  exact ⟨hguard.1, hguard.2, hs.2.1, (hs.2.2.2.2.2 rfl rfl).1⟩

/-- C10: when the stored CSV preview is not valid JSON, the mount effect
catches the parse error, leaves the preview state null, and the View CSV
button is disabled. -/
theorem c10_invalid_preview (s : String) (h : jsonParse s = none) :
    mountCsvPreview (some s) = none ∧
    viewCsvDisabled (mountCsvPreview (some s)) = true := by
  have hm : mountCsvPreview (some s) = none := by
    cases ht : truthyStr s <;> simp [mountCsvPreview, ht, h]
  exact ⟨hm, by simp [hm, viewCsvDisabled]⟩

/-- C10 witness: a concrete malformed stored preview. -/
theorem c10_witness :
    jsonParse "\x7bbad" = none ∧
    mountCsvPreview (some "\x7bbad") = none ∧
    viewCsvDisabled (mountCsvPreview (some "\x7bbad")) = true := by
  have hp : jsonParse "\x7bbad" = none := rfl
  exact ⟨hp, (c10_invalid_preview "\x7bbad" hp).1, (c10_invalid_preview "\x7bbad" hp).2⟩
